import Mathlib

/-!
Shallow embedding of the telemetry aggregation engine of the
Python-Windows11-Telemetry repository (dashboard.py `SystemMetrics` and
arduino_telemetry_client_multi_gpu.py `TelemetryClient`), together with
theorems settling the behavioural claims about counter-to-rate
conversion, temperature resolution, GPU backend selection and the
bounded history buffers.

Real-valued quantities (timestamps, byte counters, percentages,
temperatures) are modelled as rationals; byte counts fed to Python's
floor division `//` are modelled as naturals so that `//` becomes `Nat`
division.
-/

namespace Telemetry

/-! ## Counter-to-rate conversion (dashboard.py, update_metrics lines 220-293;
client collect_metrics lines 133-188) -/

/-- Result of `psutil.disk_io_counters()`: cumulative read/write byte counters. -/
structure DiskCounters where
  read_bytes : ℚ
  write_bytes : ℚ
deriving DecidableEq

/-- Result of `psutil.net_io_counters()`: cumulative sent/received byte counters. -/
structure NetCounters where
  bytes_sent : ℚ
  bytes_recv : ℚ
deriving DecidableEq

/-- The slice of `SystemMetrics` state that participates in rate computation:
previously stored counters, the previous tick timestamp, and the current
speed fields (dashboard.py lines 66-72 and 94-99). -/
structure CounterState where
  prev_disk_read : ℚ
  prev_disk_write : ℚ
  prev_net_sent : ℚ
  prev_net_recv : ℚ
  prev_time : ℚ
  disk_read_speed : ℚ
  disk_write_speed : ℚ
  network_sent_speed : ℚ
  network_recv_speed : ℚ
  network_total_sent : ℚ
  network_total_recv : ℚ
deriving DecidableEq

/-- `SystemMetrics.__init__` (dashboard.py lines 66-72, 94-99): all previous
counters start at 0, all speeds start at 0, and `prev_time` is the wall
clock at construction time. -/
def initCounterState (t0 : ℚ) : CounterState :=
  { prev_disk_read := 0
    prev_disk_write := 0
    prev_net_sent := 0
    prev_net_recv := 0
    prev_time := t0
    disk_read_speed := 0
    disk_write_speed := 0
    network_sent_speed := 0
    network_recv_speed := 0
    network_total_sent := 0
    network_total_recv := 0 }

/-- The disk/network blocks of `SystemMetrics.update_metrics`
(dashboard.py lines 220-261 and 293).  `time_diff` is computed once from
the stored `prev_time`; each block runs only when its counter object is
present (`psutil` returned a value) and `time_diff > 0`; speeds are raw
`delta / time_diff` with no clamping; `prev_time` is updated
unconditionally at the end of the tick (line 293). -/
def updateCounters (s : CounterState) (dc : Option DiskCounters)
    (nc : Option NetCounters) (current_time : ℚ) : CounterState :=
  let time_diff := current_time - s.prev_time
  let s1 :=
    match dc with
    | some d =>
      if 0 < time_diff then
        { s with
          disk_read_speed := (d.read_bytes - s.prev_disk_read) / time_diff
          disk_write_speed := (d.write_bytes - s.prev_disk_write) / time_diff
          prev_disk_read := d.read_bytes
          prev_disk_write := d.write_bytes }
      else s
    | none => s
  let s2 :=
    match nc with
    | some n =>
      if 0 < time_diff then
        { s1 with
          network_sent_speed := (n.bytes_sent - s1.prev_net_sent) / time_diff
          network_recv_speed := (n.bytes_recv - s1.prev_net_recv) / time_diff
          prev_net_sent := n.bytes_sent
          prev_net_recv := n.bytes_recv
          network_total_sent := n.bytes_sent
          network_total_recv := n.bytes_recv }
      else s1
    | none => s1
  { s2 with prev_time := current_time }

/-! ## Bounded history deques (dashboard.py lines 101-115 and 278-291) -/

/-- Appending to a `collections.deque(maxlen=cap)`: when the deque is full
the leftmost (oldest) element is evicted, otherwise the element is simply
appended on the right. -/
def dequeAppend (cap : Nat) (xs : List α) (x : α) : List α :=
  if xs.length < cap then xs ++ [x] else xs.tail ++ [x]

/-- One raw tick's worth of metric values, as held in the `SystemMetrics`
fields at the moment the history-append block (dashboard.py lines 279-291)
runs. -/
structure TickData where
  timestamp : ℚ
  cpu_percent : ℚ
  memory_percent : ℚ
  disk_read_speed : ℚ
  disk_write_speed : ℚ
  network_sent_speed : ℚ
  network_recv_speed : ℚ
  cpu_temp : ℚ
  gpu_usage : ℚ
  gpu_memory_percent : ℚ
  gpu_temp : ℚ
  audio_sample_rate : ℚ
  audio_buffer_size : ℚ
deriving DecidableEq

/-- The thirteen per-metric history deques of `SystemMetrics`
(dashboard.py lines 103-115), each a `deque(maxlen=60)`. -/
structure Histories where
  timestamps : List ℚ
  cpu_history : List ℚ
  memory_history : List ℚ
  disk_read_history : List ℚ
  disk_write_history : List ℚ
  network_sent_history : List ℚ
  network_recv_history : List ℚ
  temp_history : List ℚ
  gpu_usage_history : List ℚ
  gpu_memory_history : List ℚ
  gpu_temp_history : List ℚ
  audio_sample_rate_history : List ℚ
  audio_buffer_history : List ℚ
deriving DecidableEq

/-- All history deques start empty (dashboard.py lines 103-115). -/
def emptyHistories : Histories :=
  ⟨[], [], [], [], [], [], [], [], [], [], [], [], []⟩

/-- The history-append block of `update_metrics` (dashboard.py lines
279-291): exactly one value is appended to each of the thirteen deques,
with the unit conversions done at append time (bytes/s to MB/s for disk
and network, Hz to kHz for the audio sample rate). -/
def appendHistories (h : Histories) (t : TickData) : Histories :=
  { timestamps := dequeAppend 60 h.timestamps t.timestamp
    cpu_history := dequeAppend 60 h.cpu_history t.cpu_percent
    memory_history := dequeAppend 60 h.memory_history t.memory_percent
    disk_read_history := dequeAppend 60 h.disk_read_history (t.disk_read_speed / (1024 * 1024))
    disk_write_history := dequeAppend 60 h.disk_write_history (t.disk_write_speed / (1024 * 1024))
    network_sent_history := dequeAppend 60 h.network_sent_history (t.network_sent_speed / (1024 * 1024))
    network_recv_history := dequeAppend 60 h.network_recv_history (t.network_recv_speed / (1024 * 1024))
    temp_history := dequeAppend 60 h.temp_history t.cpu_temp
    gpu_usage_history := dequeAppend 60 h.gpu_usage_history t.gpu_usage
    gpu_memory_history := dequeAppend 60 h.gpu_memory_history t.gpu_memory_percent
    gpu_temp_history := dequeAppend 60 h.gpu_temp_history t.gpu_temp
    audio_sample_rate_history := dequeAppend 60 h.audio_sample_rate_history (t.audio_sample_rate / 1000)
    audio_buffer_history := dequeAppend 60 h.audio_buffer_history t.audio_buffer_size }

/-- Histories after a whole run of ticks, starting from the empty deques. -/
def historiesAfter (ts : List TickData) : Histories :=
  ts.foldl appendHistories emptyHistories

/-- A single metric's deque after a sequence of appended values, starting
empty — the generic shape shared by all thirteen buffers. -/
def historyFold (items : List ℚ) : List ℚ :=
  items.foldl (dequeAppend 60) []

/-! ## Temperature resolution (dashboard.py update_temperature lines
295-332; client get_cpu_temperature lines 228-244) -/

/-- Raw sensor readings are reported in tenths of Kelvin and converted to
Celsius (dashboard.py lines 304 and 317). -/
def kelvinTenthsToCelsius (raw : ℚ) : ℚ :=
  raw / 10 - 27315 / 100

/-- One probing pass over a sensor source's readings (dashboard.py lines
302-308 and 313-321): a reading is used only when it is present and
truthy (`if sensor.CurrentReading`) and its Celsius conversion lies in
the open interval `(0, 150)`; otherwise the loop falls through to the
next sensor. -/
def sensorAccept (r : Option ℚ) : Option ℚ :=
  match r with
  | some raw =>
    if raw ≠ 0 then
      let t := kelvinTenthsToCelsius raw
      if 0 < t ∧ t < 150 then some t else none
    else none
  | none => none

/-- Probing one sensor source is taking the first reading the
plausibility filter accepts. -/
def probeSensors (readings : List (Option ℚ)) : Option ℚ :=
  readings.findSome? sensorAccept

/-- The load-based fallback estimate (dashboard.py lines 329-332; client
lines 241-244): `35 + (cpu_percent / 100) * 30`. -/
def estimateTemp (cpu_percent : ℚ) : ℚ :=
  35 + cpu_percent / 100 * 30

/-- `SystemMetrics.update_temperature` (dashboard.py lines 295-332): probe
the thermal-probe source, then the ACPI thermal-zone source, and fall
back to the load-based estimate when neither source yields a plausible
reading. -/
def update_temperature (probe1 probe2 : List (Option ℚ)) (cpu_percent : ℚ) : ℚ :=
  match probeSensors probe1 with
  | some t => t
  | none =>
    match probeSensors probe2 with
    | some t => t
    | none => estimateTemp cpu_percent

/-! ## GPU backend discovery and primary selection
(dashboard.py update_gpu_metrics lines 334-452; client get_gpu_metrics
lines 246-377) -/

/-- Substring containment, the model of Python's `needle in haystack` on
strings. -/
def strContains (hay needle : String) : Bool :=
  (List.range (hay.toList.length + 1)).any fun i =>
    needle.toList.isPrefixOf (hay.toList.drop i)

/-- Outcome of probing one GPU backend in a tick: the backing library can
be absent (import failed / never initialized), the probe can raise an
exception, or it returns data. -/
inductive Probe (α : Type) where
  | absent : Probe α
  | failed : Probe α
  | ok : α → Probe α
deriving DecidableEq

/-- Data obtained from the NVML backend for the first device
(dashboard.py lines 340-356): utilization, memory in bytes, and a
temperature that is `none` when the inner temperature query raised. -/
structure NvmlData where
  util_gpu : ℚ
  mem_used : ℕ
  mem_total : ℕ
  temp : Option ℚ
deriving DecidableEq

/-- A device as reported by the GPUtil backend: name, `load` as a
fraction, memory values in MB, and an optional temperature. -/
structure GpuDevice where
  name : String
  load : ℚ
  memoryUsed : ℚ
  memoryTotal : ℚ
  temperature : Option ℚ
deriving DecidableEq

/-- A `Win32_VideoController` record as seen through WMI: a name and an
optional `AdapterRAM` byte count. -/
structure WmiGpu where
  name : String
  adapterRAM : Option ℕ
deriving DecidableEq

/-- The GPU-related fields of `SystemMetrics` (dashboard.py lines 77-82). -/
structure GpuState where
  gpu_usage : ℚ
  gpu_memory_used : ℚ
  gpu_memory_total : ℚ
  gpu_memory_percent : ℚ
  gpu_temp : ℚ
  gpu_name : String
deriving DecidableEq

/-- The "No GPU detected" defaults written when every backend path falls
through (dashboard.py lines 436-442). -/
def noGpuDefaults : GpuState :=
  { gpu_usage := 0
    gpu_memory_used := 0
    gpu_memory_total := 0
    gpu_memory_percent := 0
    gpu_temp := 0
    gpu_name := "No GPU detected" }

/-- Python's `max(gpus, key=lambda g: g.memoryTotal if g.memoryTotal else 0)`
(dashboard.py lines 159 and 368): the first device with the maximal
reported memory. -/
def maxByMem (g : GpuDevice) (rest : List GpuDevice) : GpuDevice :=
  rest.foldl (fun best x => if best.memoryTotal < x.memoryTotal then x else best) g

/-- Writing the fields from the selected GPUtil device (dashboard.py
lines 370-375): `load` is scaled to a percentage with no clamping, the
memory percentage guards only against a zero total, and a falsy
temperature becomes 0. -/
def gputilApply (primary : GpuDevice) : GpuState :=
  { gpu_usage := primary.load * 100
    gpu_memory_used := primary.memoryUsed
    gpu_memory_total := primary.memoryTotal
    gpu_memory_percent :=
      if 0 < primary.memoryTotal then primary.memoryUsed / primary.memoryTotal * 100 else 0
    gpu_temp := primary.temperature.getD 0
    gpu_name := primary.name }

/-- Writing the fields from NVML data (dashboard.py lines 343-356): the
byte counts go through Python floor division `// (1024*1024)`, the
memory percentage is `used / total * 100`, and the GPU name is left as it
was (the NVML path never assigns `gpu_name` inside `update_metrics`). -/
def nvmlApply (s : GpuState) (d : NvmlData) : GpuState :=
  { s with
    gpu_usage := d.util_gpu
    gpu_memory_used := ((d.mem_used / (1024 * 1024) : ℕ) : ℚ)
    gpu_memory_total := ((d.mem_total / (1024 * 1024) : ℕ) : ℚ)
    gpu_memory_percent := (d.mem_used : ℚ) / (d.mem_total : ℚ) * 100
    gpu_temp := d.temp.getD 0 }

/-- Dashboard keyword test used to prefer an NVIDIA card in the WMI path
(dashboard.py line 399). -/
def dashIsNvidia (name : String) : Bool :=
  strContains name "RTX" || strContains name "GeForce"

/-- Name-based memory defaults of the WMI path when `AdapterRAM` is
missing or falsy (dashboard.py lines 418-427): 24 GB with 20% used for
an "RTX 3090" name, 8 GB with 15% used otherwise. -/
def wmiNoRamApply (usage : ℚ) (g : WmiGpu) : GpuState :=
  if strContains g.name "RTX 3090" then
    { gpu_usage := usage
      gpu_memory_used := 4915
      gpu_memory_total := 24576
      gpu_memory_percent := 20
      gpu_temp := 0
      gpu_name := g.name }
  else
    { gpu_usage := usage
      gpu_memory_used := 1228
      gpu_memory_total := 8192
      gpu_memory_percent := 15
      gpu_temp := 0
      gpu_name := g.name }

/-- Writing the fields from the selected WMI video controller
(dashboard.py lines 407-429): usage is estimated as
`min(cpu_percent * 0.7, 100)`; memory comes from `AdapterRAM` when it is
truthy (`AdapterRAM // (1024*1024)` total, a quarter of it as used, 25%),
otherwise from the name-based defaults; the temperature is always 0. -/
def wmiApply (cpu_percent : ℚ) (g : WmiGpu) : GpuState :=
  let usage := min (cpu_percent * (7 / 10)) 100
  match g.adapterRAM with
  | some r =>
    if r ≠ 0 then
      let total : ℕ := r / (1024 * 1024)
      { gpu_usage := usage
        gpu_memory_used := ((total / 4 : ℕ) : ℚ)
        gpu_memory_total := (total : ℚ)
        gpu_memory_percent := 25
        gpu_temp := 0
        gpu_name := g.name }
    else wmiNoRamApply usage g
  | none => wmiNoRamApply usage g

/-- The WMI fallback stage of `update_gpu_metrics` (dashboard.py lines
382-442): filter out controllers with a falsy name or a name containing
"Microsoft" or "Basic"; when the filtered list is non-empty, pick the
first device whose name contains "RTX" or "GeForce", else the first
filtered device; a WMI error, an absent WMI library, or an empty
filtered list all fall through to the "No GPU detected" defaults. -/
def wmiStage (cpu_percent : ℚ) (wmiRes : Probe (List WmiGpu)) : GpuState :=
  match wmiRes with
  | .ok devs =>
    let discrete := devs.filter fun g =>
      (g.name != "") && !(strContains g.name "Microsoft") && !(strContains g.name "Basic")
    match discrete with
    | [] => noGpuDefaults
    | d0 :: ds =>
      let primary := ((d0 :: ds).find? fun g => dashIsNvidia g.name).getD d0
      wmiApply cpu_percent primary
  | _ => noGpuDefaults

/-- The GPUtil stage of `update_gpu_metrics` (dashboard.py lines
362-379): on success with a non-empty device list the primary device is
the one with maximal reported memory; an error, an absent library, or an
empty list fall through to the WMI stage. -/
def gputilStage (cpu_percent : ℚ) (gputilRes : Probe (List GpuDevice))
    (wmiRes : Probe (List WmiGpu)) : GpuState :=
  match gputilRes with
  | .ok gpus =>
    match gpus with
    | [] => wmiStage cpu_percent wmiRes
    | g :: rest => gputilApply (maxByMem g rest)
  | _ => wmiStage cpu_percent wmiRes

/-- `SystemMetrics.update_gpu_metrics` (dashboard.py lines 334-452): try
NVML first; a raised NVML call (including the division by a zero memory
total) falls through to GPUtil, then to WMI, then to the defaults.
Whatever path completes rewrites the observable GPU fields, so each
backend probe is modelled as one atomic outcome. -/
def update_gpu_metrics (s : GpuState) (cpu_percent : ℚ) (nvmlRes : Probe NvmlData)
    (gputilRes : Probe (List GpuDevice)) (wmiRes : Probe (List WmiGpu)) : GpuState :=
  match nvmlRes with
  | .ok d =>
    if d.mem_total = 0 then gputilStage cpu_percent gputilRes wmiRes
    else nvmlApply s d
  | _ => gputilStage cpu_percent gputilRes wmiRes

/-! ## Client-side GPU selection and fallback
(arduino_telemetry_client_multi_gpu.py get_gpu_metrics) -/

/-- The client's discrete-GPU keyword set (lines 295-296 and 325-326):
a name containing "RTX", "GTX", "3090" or "RX". -/
def clientIsDiscrete (name : String) : Bool :=
  strContains name "RTX" || strContains name "GTX" ||
    strContains name "3090" || strContains name "RX"

/-- The client's GPUtil selection (lines 293-301): the first device with
a truthy name that either matches the discrete keyword set or reports
more than 4000 MB of memory; when no device qualifies, the first device
of the list. -/
def clientSelectGPUtil (gpus : List GpuDevice) : Option GpuDevice :=
  match gpus.find? fun g =>
      (g.name != "") && (clientIsDiscrete g.name || decide (4000 < g.memoryTotal)) with
  | some g => some g
  | none => gpus.head?

/-- The GPU tuple returned by the client: usage and memory percentages,
temperature, and name. -/
structure ClientGpuResult where
  usage : ℚ
  memory_percent : ℚ
  temp : ℚ
  name : String
deriving DecidableEq

/-- The client's final no-GPU fallback (lines 367-377): utilization is
`min(cpu_percent * 0.4, 100)`, memory percent a fixed 15, temperature
`40 + usage * 0.2`, name "Integrated Graphics".  No estimated flag is
part of the returned tuple. -/
def clientNoGpuFallback (cpu_percent : ℚ) : ClientGpuResult :=
  let usage := min (cpu_percent * (2 / 5)) 100
  { usage := usage
    memory_percent := 15
    temp := 40 + usage * (1 / 5)
    name := "Integrated Graphics" }

/-! ## The full sampling pass (dashboard.py update_metrics lines 218-293) -/

/-- Everything one sampling pass reads from the outside world: the wall
clock, the point-in-time psutil readings, the optional cumulative
counters, the two temperature sources, the three GPU backend outcomes,
and the audio values. -/
structure SampleInputs where
  current_time : ℚ
  cpu_percent : ℚ
  memory_percent : ℚ
  disk_used : ℚ
  disk_total : ℚ
  diskCounters : Option DiskCounters
  netCounters : Option NetCounters
  tempProbe1 : List (Option ℚ)
  tempProbe2 : List (Option ℚ)
  nvmlRes : Probe NvmlData
  gputilRes : Probe (List GpuDevice)
  wmiRes : Probe (List WmiGpu)
  audio_sample_rate : ℚ
  audio_buffer_size : ℚ

/-- The slice of `SystemMetrics` state that one sampling pass reads and
writes. -/
structure MetricsState where
  counters : CounterState
  cpu_percent : ℚ
  memory_percent : ℚ
  disk_usage_percent : ℚ
  cpu_temp : ℚ
  gpu : GpuState
  audio_sample_rate : ℚ
  audio_buffer_size : ℚ
  hist : Histories

/-- `SystemMetrics.update_metrics` (dashboard.py lines 218-293): rates
from the cumulative counters, disk usage percentage, temperature
resolution, GPU update, then one append to every history deque.  The
function is total over every combination of missing counters and
failing backends. -/
def update_metrics (s : MetricsState) (inp : SampleInputs) : MetricsState :=
  let cs := updateCounters s.counters inp.diskCounters inp.netCounters inp.current_time
  let cpu := inp.cpu_percent
  let temp := update_temperature inp.tempProbe1 inp.tempProbe2 cpu
  let gpu := update_gpu_metrics s.gpu cpu inp.nvmlRes inp.gputilRes inp.wmiRes
  let tick : TickData :=
    { timestamp := inp.current_time
      cpu_percent := cpu
      memory_percent := inp.memory_percent
      disk_read_speed := cs.disk_read_speed
      disk_write_speed := cs.disk_write_speed
      network_sent_speed := cs.network_sent_speed
      network_recv_speed := cs.network_recv_speed
      cpu_temp := temp
      gpu_usage := gpu.gpu_usage
      gpu_memory_percent := gpu.gpu_memory_percent
      gpu_temp := gpu.gpu_temp
      audio_sample_rate := inp.audio_sample_rate
      audio_buffer_size := inp.audio_buffer_size }
  { counters := cs
    cpu_percent := cpu
    memory_percent := inp.memory_percent
    disk_usage_percent := inp.disk_used / inp.disk_total * 100
    cpu_temp := temp
    gpu := gpu
    audio_sample_rate := inp.audio_sample_rate
    audio_buffer_size := inp.audio_buffer_size
    hist := appendHistories s.hist tick }

/-! ## Helper lemmas -/

/-- Folding `dequeAppend` keeps only the last `cap` of the appended
elements: the result is the tail-end suffix of the appended sequence. -/
theorem dequeAppend_foldl (cap : Nat) (hcap : 0 < cap) :
    ∀ (ys xs : List α), xs.length ≤ cap →
      List.foldl (dequeAppend cap) xs ys =
        (xs ++ ys).drop (xs.length + ys.length - cap) := by
  intro ys
  induction ys with
  | nil =>
    intro xs hxs
    simp [Nat.sub_eq_zero_of_le hxs]
  | cons y ys ih =>
    intro xs hxs
    rw [List.foldl_cons]
    by_cases h : xs.length < cap
    · rw [dequeAppend, if_pos h]
      have hlen : (xs ++ [y]).length ≤ cap := by
        simp only [List.length_append, List.length_cons, List.length_nil]
        omega
      rw [ih (xs ++ [y]) hlen]
      have harith : (xs ++ [y]).length + ys.length - cap
          = xs.length + (y :: ys).length - cap := by
        simp only [List.length_append, List.length_cons, List.length_nil, List.length_cons]
        omega
      rw [harith, List.append_assoc, List.singleton_append]
    · have hxcap : xs.length = cap := by omega
      rw [dequeAppend, if_neg h]
      cases xs with
      | nil =>
        exfalso
        simp only [List.length_nil] at hxcap
        omega
      | cons x xs' =>
        simp only [List.tail_cons]
        have hx' : xs'.length + 1 = cap := by simpa using hxcap
        have hlen : (xs' ++ [y]).length ≤ cap := by
          simp only [List.length_append, List.length_cons, List.length_nil]
          omega
        rw [ih (xs' ++ [y]) hlen]
        have h1 : (xs' ++ [y]).length + ys.length - cap = ys.length := by
          simp only [List.length_append, List.length_cons, List.length_nil]
          omega
        have h2 : (x :: xs').length + (y :: ys).length - cap = ys.length + 1 := by
          simp only [List.length_cons]
          omega
        rw [h1, h2, List.append_assoc, List.singleton_append,
          List.cons_append, List.drop_succ_cons]

/-- A single history deque, fed from empty, retains exactly the last-60
suffix of the appended values. -/
theorem historyFold_eq (items : List ℚ) :
    historyFold items = items.drop (items.length - 60) := by
  have h := dequeAppend_foldl 60 (by norm_num) items ([] : List ℚ) (by simp)
  simpa [historyFold] using h

/-- C4: every history buffer has length at most 60, and after `N ≥ 60`
appends its length is exactly 60 with FIFO eviction — the oldest retained
entry is the `(N-60+1)`-th appended value. -/
theorem C4_history_bounded_fifo (items : List ℚ) :
    (historyFold items).length ≤ 60 ∧
      (60 ≤ items.length →
        (historyFold items).length = 60 ∧
          (historyFold items).head? = items[items.length - 60]?) := by
  rw [historyFold_eq]
  refine ⟨?_, fun h => ⟨?_, ?_⟩⟩
  · rw [List.length_drop]; omega
  · rw [List.length_drop]; omega
  · exact List.head?_drop items (items.length - 60)

/-- Concrete 61-append run used to witness the FIFO claim. -/
def c4Items : List ℚ := (List.range 61).map fun n => (n : ℚ)

/-- C4 witness: after 61 appends the buffer holds 60 entries and its
oldest entry is the 2nd appended value. -/
theorem C4_history_witness :
    60 ≤ c4Items.length ∧
      ((historyFold c4Items).length = 60 ∧
        (historyFold c4Items).head? = c4Items[c4Items.length - 60]?) :=
  have hlen : c4Items.length = 61 := rfl
  ⟨by rw [hlen]; norm_num, (C4_history_bounded_fifo c4Items).2 (by rw [hlen]; norm_num)⟩

/-! ## Counter-rate claims -/

/-- The disk-read speed field after one tick, by cases on the input. -/
theorem updateCounters_disk_read_speed (s : CounterState) (dc : Option DiskCounters)
    (nc : Option NetCounters) (t : ℚ) :
    (updateCounters s dc nc t).disk_read_speed =
      match dc with
      | some d =>
        if 0 < t - s.prev_time then (d.read_bytes - s.prev_disk_read) / (t - s.prev_time)
        else s.disk_read_speed
      | none => s.disk_read_speed := by
  rcases dc with _ | d <;> rcases nc with _ | n <;>
    by_cases h : 0 < t - s.prev_time <;> simp [updateCounters, h]

/-- The stored previous disk-read counter after one tick. -/
theorem updateCounters_prev_disk_read (s : CounterState) (dc : Option DiskCounters)
    (nc : Option NetCounters) (t : ℚ) :
    (updateCounters s dc nc t).prev_disk_read =
      match dc with
      | some d => if 0 < t - s.prev_time then d.read_bytes else s.prev_disk_read
      | none => s.prev_disk_read := by
  rcases dc with _ | d <;> rcases nc with _ | n <;>
    by_cases h : 0 < t - s.prev_time <;> simp [updateCounters, h]

/-- When the current timestamp is not later than the stored one, nothing
but `prev_time` changes: speeds keep their old values and no counter
sample is recorded. -/
theorem updateCounters_of_nonpos (s : CounterState) (dc : Option DiskCounters)
    (nc : Option NetCounters) (t : ℚ) (h : t ≤ s.prev_time) :
    updateCounters s dc nc t = { s with prev_time := t } := by
  have h' : ¬ 0 < t - s.prev_time := by
    simp only [not_lt]
    exact sub_nonpos.mpr h
  rcases dc with _ | d <;> rcases nc with _ | n <;> simp [updateCounters, h']

/-- State after the first call of the C1 reset scenario, written out. -/
theorem c1FirstState_eq :
    updateCounters (initCounterState 0) (some ⟨100, 0⟩) none 1
      = ⟨100, 0, 0, 0, 1, 100, 0, 0, 0, 0, 0⟩ := by
  norm_num [updateCounters, initCounterState]

/-- C1 counterexample: a counter reset produces a negative rate.  Start
at time 0, sample `read=100` at `t=1` (rate 100), then sample `read=0`
at `t=2`: the computed disk read rate is `-100 < 0`, so the claimed
clamping of negative deltas does not exist in the code. -/
theorem C1_counterexample :
    (updateCounters
        (updateCounters (initCounterState 0) (some ⟨100, 0⟩) none 1)
        (some ⟨0, 0⟩) none 2).disk_read_speed < 0 := by
  rw [c1FirstState_eq]
  norm_num [updateCounters]

/-- C1 amended: the code computes raw `delta / elapsed` with no clamping,
so a rate is only guaranteed non-negative when the cumulative counters do
not decrease; under that monotonicity assumption (and non-negative
previous speeds, which hold from construction) all four throughput rates
stay `≥ 0`. -/
theorem C1_rate_nonneg_of_monotone (s : CounterState) (dc : Option DiskCounters)
    (nc : Option NetCounters) (t : ℚ)
    (h1 : 0 ≤ s.disk_read_speed) (h2 : 0 ≤ s.disk_write_speed)
    (h3 : 0 ≤ s.network_sent_speed) (h4 : 0 ≤ s.network_recv_speed)
    (hd : ∀ d, dc = some d → s.prev_disk_read ≤ d.read_bytes ∧ s.prev_disk_write ≤ d.write_bytes)
    (hn : ∀ n, nc = some n → s.prev_net_sent ≤ n.bytes_sent ∧ s.prev_net_recv ≤ n.bytes_recv) :
    0 ≤ (updateCounters s dc nc t).disk_read_speed ∧
      0 ≤ (updateCounters s dc nc t).disk_write_speed ∧
      0 ≤ (updateCounters s dc nc t).network_sent_speed ∧
      0 ≤ (updateCounters s dc nc t).network_recv_speed := by
  by_cases h : 0 < t - s.prev_time
  · rcases dc with _ | d <;> rcases nc with _ | n <;> simp [updateCounters, h]
    · exact ⟨h1, h2, h3, h4⟩
    · refine ⟨h1, h2, ?_, ?_⟩
      · exact div_nonneg (sub_nonneg.mpr (hn n rfl).1) h.le
      · exact div_nonneg (sub_nonneg.mpr (hn n rfl).2) h.le
    · refine ⟨?_, ?_, h3, h4⟩
      · exact div_nonneg (sub_nonneg.mpr (hd d rfl).1) h.le
      · exact div_nonneg (sub_nonneg.mpr (hd d rfl).2) h.le
    · refine ⟨?_, ?_, ?_, ?_⟩
      · exact div_nonneg (sub_nonneg.mpr (hd d rfl).1) h.le
      · exact div_nonneg (sub_nonneg.mpr (hd d rfl).2) h.le
      · exact div_nonneg (sub_nonneg.mpr (hn n rfl).1) h.le
      · exact div_nonneg (sub_nonneg.mpr (hn n rfl).2) h.le
  · rcases dc with _ | d <;> rcases nc with _ | n <;> simp [updateCounters, h] <;>
      exact ⟨h1, h2, h3, h4⟩

/-- C1 amended witness: a monotone counter sequence yields non-negative
rates at a concrete input. -/
theorem C1_rate_nonneg_witness :
    0 ≤ (updateCounters (initCounterState 0) (some ⟨500, 700⟩) (some ⟨20, 30⟩) 2).disk_read_speed ∧
      0 ≤ (updateCounters (initCounterState 0) (some ⟨500, 700⟩) (some ⟨20, 30⟩) 2).disk_write_speed ∧
      0 ≤ (updateCounters (initCounterState 0) (some ⟨500, 700⟩) (some ⟨20, 30⟩) 2).network_sent_speed ∧
      0 ≤ (updateCounters (initCounterState 0) (some ⟨500, 700⟩) (some ⟨20, 30⟩) 2).network_recv_speed :=
  C1_rate_nonneg_of_monotone (initCounterState 0) (some ⟨500, 700⟩) (some ⟨20, 30⟩) 2
    (by norm_num [initCounterState]) (by norm_num [initCounterState])
    (by norm_num [initCounterState]) (by norm_num [initCounterState])
    (fun d hd => by cases hd; exact ⟨by norm_num [initCounterState], by norm_num [initCounterState]⟩)
    (fun n hn => by cases hn; exact ⟨by norm_num [initCounterState], by norm_num [initCounterState]⟩)

/-- C2 counterexample: on the very first sampling call after construction
(previous counters initialized to 0, construction at time 0, first call
at time 1 with a cumulative read counter of 1,000,000 bytes) the reported
rate is the absolute counter value 1,000,000, not 0. -/
theorem C2_counterexample :
    (updateCounters (initCounterState 0) (some ⟨1000000, 0⟩) none 1).disk_read_speed = 1000000 ∧
      ((updateCounters (initCounterState 0) (some ⟨1000000, 0⟩) none 1).disk_read_speed ≠ 0) := by
  norm_num [updateCounters, initCounterState]

/-- C2 amended: the first call never divides by zero because the whole
rate block is guarded by `time_diff > 0`, and when the current timestamp
is not later than the previous one the speeds are left unchanged and no
sample is recorded; but the first call does not return 0: because the
previous counters are initialized to 0, it reports the absolute counter
value divided by the time elapsed since construction. -/
theorem C2_first_call_behaviour (t0 t : ℚ) (d : DiskCounters) (nc : Option NetCounters)
    (h : t0 < t) :
    (updateCounters (initCounterState t0) (some d) nc t).disk_read_speed
        = d.read_bytes / (t - t0) ∧
      (∀ (s : CounterState) (dc' : Option DiskCounters) (nc' : Option NetCounters) (t' : ℚ),
        t' ≤ s.prev_time → updateCounters s dc' nc' t' = { s with prev_time := t' }) := by
  constructor
  · rw [updateCounters_disk_read_speed]
    have hpos : (0 : ℚ) < t - t0 := by linarith
    dsimp only [initCounterState]
    rw [if_pos hpos, sub_zero]
  · exact fun s dc' nc' t' h' => updateCounters_of_nonpos s dc' nc' t' h'

/-- C2 amended witness: constructed at time 0 and first sampled at time 2
with a counter of 1,000,000, the first call reports 500,000 bytes/sec
(the absolute counter over the elapsed time), and a backward clock jump
leaves state untouched except for the stored timestamp. -/
theorem C2_first_call_witness :
    (updateCounters (initCounterState 0) (some ⟨1000000, 0⟩) none 2).disk_read_speed
        = 1000000 / (2 - 0) ∧
      updateCounters (initCounterState 0) none none (-5)
        = { initCounterState 0 with prev_time := -5 } :=
  ⟨(C2_first_call_behaviour 0 2 ⟨1000000, 0⟩ none (by norm_num)).1,
    (C2_first_call_behaviour 0 2 ⟨1000000, 0⟩ none (by norm_num)).2
      (initCounterState 0) none none (-5) (by norm_num [initCounterState])⟩

/-- C9: with a recorded previous sample, a strictly later timestamp and a
non-negative delta, the reported rate is exactly `delta / elapsed` in
bytes per second, and the new counter value is recorded as the previous
sample for the next tick. -/
theorem C9_rate_formula (s : CounterState) (d : DiskCounters) (nc : Option NetCounters)
    (t : ℚ) (hlt : s.prev_time < t) (hdelta : 0 ≤ d.read_bytes - s.prev_disk_read) :
    (updateCounters s (some d) nc t).disk_read_speed
        = (d.read_bytes - s.prev_disk_read) / (t - s.prev_time) ∧
      (updateCounters s (some d) nc t).prev_disk_read = d.read_bytes := by
  have hpos : 0 < t - s.prev_time := sub_pos.mpr hlt
  constructor
  · rw [updateCounters_disk_read_speed]
    dsimp only
    rw [if_pos hpos]
  · rw [updateCounters_prev_disk_read]
    dsimp only
    rw [if_pos hpos]

/-- The counter state after the first of the two C9 scenario calls:
construction at time -1, then `read=1,000,000 bytes` sampled at `t=0`. -/
def c9FirstCall : CounterState :=
  updateCounters (initCounterState (-1)) (some ⟨1000000, 0⟩) none 0

/-- The first C9 call records the sample: the state written out. -/
theorem c9FirstCall_eq :
    c9FirstCall = ⟨1000000, 0, 0, 0, 0, 1000000, 0, 0, 0, 0, 0⟩ := by
  norm_num [c9FirstCall, updateCounters, initCounterState]

/-- C9 witness: feeding `read=1,000,000 @ t=0` then `read=6,000,000 @ t=2`
makes the second call report 2,500,000 bytes/sec. -/
theorem C9_rate_witness :
    c9FirstCall.prev_time < 2 ∧
      (updateCounters c9FirstCall (some ⟨6000000, 0⟩) none 2).disk_read_speed = 2500000 := by
  have hlt : c9FirstCall.prev_time < 2 := by rw [c9FirstCall_eq]; norm_num
  have hdelta : (0 : ℚ) ≤ (6000000 : ℚ) - c9FirstCall.prev_disk_read := by
    rw [c9FirstCall_eq]; norm_num
  have h := (C9_rate_formula c9FirstCall ⟨6000000, 0⟩ none 2 hlt hdelta).1
  refine ⟨hlt, ?_⟩
  rw [h, c9FirstCall_eq]
  norm_num

/-! ## Temperature claims -/

/-- Any value the plausibility filter lets through lies in the open
interval `(0, 150)` Celsius. -/
theorem sensorAccept_range (r : Option ℚ) (t : ℚ) (h : sensorAccept r = some t) :
    0 < t ∧ t < 150 := by
  rcases r with _ | raw
  · simp [sensorAccept] at h
  · simp only [sensorAccept] at h
    by_cases hz : raw ≠ 0
    · rw [if_pos hz] at h
      by_cases hp : 0 < kelvinTenthsToCelsius raw ∧ kelvinTenthsToCelsius raw < 150
      · rw [if_pos hp] at h
        cases h
        exact hp
      · rw [if_neg hp] at h
        cases h
    · rw [if_neg hz] at h
      cases h

/-- Any reading a probing pass returns came through the plausibility
filter. -/
theorem probeSensors_range (rs : List (Option ℚ)) (t : ℚ)
    (h : probeSensors rs = some t) : 0 < t ∧ t < 150 := by
  induction rs with
  | nil => simp [probeSensors] at h
  | cons r rest ih =>
    rw [probeSensors, List.findSome?_cons] at h
    rcases hr : sensorAccept r with _ | v
    · rw [hr] at h
      exact ih h
    · rw [hr] at h
      cases h
      exact sensorAccept_range r t hr

/-- C5: the temperature resolver accepts a sensor reading only when it
lies in the open interval `(0, 150)` Celsius, falls through otherwise,
and when no source yields a plausible reading it returns the estimate
`35 + 30 * (load / 100)`, which is monotone in the load and stays within
`[35, 65]` for loads in `[0, 100]`. -/
theorem C5_temperature_resolution :
    (∀ (rs : List (Option ℚ)) (t : ℚ), probeSensors rs = some t → 0 < t ∧ t < 150) ∧
      (∀ (rs1 rs2 : List (Option ℚ)) (cpu t : ℚ), probeSensors rs1 = some t →
        update_temperature rs1 rs2 cpu = t) ∧
      (∀ (rs1 rs2 : List (Option ℚ)) (cpu : ℚ), probeSensors rs1 = none →
        probeSensors rs2 = none →
        update_temperature rs1 rs2 cpu = 35 + 30 * (cpu / 100)) ∧
      (∀ a b : ℚ, a ≤ b → estimateTemp a ≤ estimateTemp b) ∧
      (∀ c : ℚ, 0 ≤ c → c ≤ 100 → 35 ≤ estimateTemp c ∧ estimateTemp c ≤ 65) := by
  refine ⟨probeSensors_range, ?_, ?_, ?_, ?_⟩
  · intro rs1 rs2 cpu t h
    rw [update_temperature, h]
  · intro rs1 rs2 cpu h1 h2
    rw [update_temperature, h1, h2, estimateTemp]
    ring
  · intro a b hab
    rw [estimateTemp, estimateTemp]
    nlinarith
  · intro c h0 h100
    rw [estimateTemp]
    constructor <;> nlinarith

/-- C5 witness: a raw reading of 3001 tenths of Kelvin is accepted as
26.95 Celsius; with one falsy and one absent source and 50% load the
resolver falls back to the 50-degree estimate; the estimate is monotone
and in bounds at concrete loads. -/
theorem C5_temperature_witness :
    (0 < (2695 / 100 : ℚ) ∧ (2695 / 100 : ℚ) < 150) ∧
      update_temperature [some 3001] [] 77 = 2695 / 100 ∧
      update_temperature [none, some 0] [] 50 = 35 + 30 * (50 / 100) ∧
      estimateTemp 20 ≤ estimateTemp 80 ∧
      (35 ≤ estimateTemp 50 ∧ estimateTemp 50 ≤ 65) := by
  have hprobe : probeSensors [some 3001] = some (2695 / 100) := by
    rw [probeSensors, List.findSome?_cons]
    norm_num [sensorAccept, kelvinTenthsToCelsius]
  have hnone1 : probeSensors [none, some 0] = none := by
    rw [probeSensors]
    norm_num [List.findSome?_cons, sensorAccept]
  have hnone2 : probeSensors ([] : List (Option ℚ)) = none := rfl
  exact ⟨C5_temperature_resolution.1 [some 3001] _ hprobe,
    C5_temperature_resolution.2.1 [some 3001] [] 77 _ hprobe,
    C5_temperature_resolution.2.2.1 [none, some 0] [] 50 hnone1 hnone2,
    C5_temperature_resolution.2.2.2.1 20 80 (by norm_num),
    C5_temperature_resolution.2.2.2.2 50 (by norm_num) (by norm_num)⟩

/-! ## GPU selection claims -/

/-- The device chosen by `max(..., key=memoryTotal)` dominates every
device in the list by reported memory. -/
theorem maxByMem_le :
    ∀ (rest : List GpuDevice) (g x : GpuDevice), x ∈ g :: rest →
      x.memoryTotal ≤ (maxByMem g rest).memoryTotal := by
  intro rest
  induction rest with
  | nil =>
    intro g x hx
    rw [List.mem_singleton] at hx
    subst hx
    exact le_refl _
  | cons y ys ih =>
    intro g x hx
    have hstep : maxByMem g (y :: ys)
        = maxByMem (if g.memoryTotal < y.memoryTotal then y else g) ys := rfl
    rw [hstep]
    have hg : g.memoryTotal ≤ (if g.memoryTotal < y.memoryTotal then y else g).memoryTotal := by
      by_cases h : g.memoryTotal < y.memoryTotal
      · rw [if_pos h]; exact h.le
      · rw [if_neg h]
    have hy : y.memoryTotal ≤ (if g.memoryTotal < y.memoryTotal then y else g).memoryTotal := by
      by_cases h : g.memoryTotal < y.memoryTotal
      · rw [if_pos h]
      · rw [if_neg h]; exact le_of_not_lt h
    have hhead := ih (if g.memoryTotal < y.memoryTotal then y else g)
      (if g.memoryTotal < y.memoryTotal then y else g) (List.mem_cons_self _ _)
    rcases List.mem_cons.mp hx with hxg | hx'
    · subst hxg
      exact le_trans hg hhead
    · rcases List.mem_cons.mp hx' with hxy | hx''
      · subst hxy
        exact le_trans hy hhead
      · exact ih _ x (List.mem_cons_of_mem _ hx'')

/-- The device chosen by `max(..., key=memoryTotal)` is a member of the
list. -/
theorem maxByMem_mem :
    ∀ (rest : List GpuDevice) (g : GpuDevice), maxByMem g rest ∈ g :: rest := by
  intro rest
  induction rest with
  | nil =>
    intro g
    simp [maxByMem]
  | cons y ys ih =>
    intro g
    have hstep : maxByMem g (y :: ys)
        = maxByMem (if g.memoryTotal < y.memoryTotal then y else g) ys := rfl
    rw [hstep]
    have hm := ih (if g.memoryTotal < y.memoryTotal then y else g)
    rcases List.mem_cons.mp hm with heq | htail
    · rw [heq]
      by_cases h : g.memoryTotal < y.memoryTotal
      · rw [if_pos h]
        exact List.mem_cons_of_mem _ (List.mem_cons_self _ _)
      · rw [if_neg h]
        exact List.mem_cons_self _ _
    · exact List.mem_cons_of_mem _ (List.mem_cons_of_mem _ htail)

/-- The non-matching 8 GB device of the C3 scenario. -/
def intelGpu : GpuDevice :=
  { name := "Intel UHD Graphics"
    load := 3 / 100
    memoryUsed := 512
    memoryTotal := 8192
    temperature := some 40 }

/-- The keyword-matching 2 GB device of the C3 scenario. -/
def rtxGpu : GpuDevice :=
  { name := "NVIDIA GeForce RTX 3090"
    load := 9 / 10
    memoryUsed := 1024
    memoryTotal := 2048
    temperature := some 70 }

/-- C3 counterexample: with a non-matching 8 GB device and a
keyword-matching 2 GB device, the dashboard's GPUtil selection picks the
8 GB non-matching device (selection is by reported memory, keywords play
no part), and the client's GPUtil selection also picks it (first device
matching the keyword set OR exceeding 4000 MB wins, and the 8 GB device
comes first). -/
theorem C3_counterexample :
    (update_gpu_metrics noGpuDefaults 10 .absent (.ok [intelGpu, rtxGpu]) .absent).gpu_name
        = "Intel UHD Graphics" ∧
      clientIsDiscrete "Intel UHD Graphics" = false ∧
      clientIsDiscrete "NVIDIA GeForce RTX 3090" = true ∧
      clientSelectGPUtil [intelGpu, rtxGpu] = some intelGpu := by
  exact ⟨rfl, by decide, by decide, rfl⟩

/-- C3 amended: primary-device selection is deterministic but memory
size outranks the keyword set: the dashboard's GPUtil path always
selects the first device with maximal reported memory (its memory
dominates every listed device), regardless of keyword matches. -/
theorem C3_memory_outranks_keywords (s : GpuState) (cpu : ℚ)
    (wmiRes : Probe (List WmiGpu)) (g : GpuDevice) (rest : List GpuDevice) :
    update_gpu_metrics s cpu .absent (.ok (g :: rest)) wmiRes
        = gputilApply (maxByMem g rest) ∧
      ∀ x ∈ g :: rest, x.memoryTotal ≤ (maxByMem g rest).memoryTotal :=
  ⟨rfl, fun x hx => maxByMem_le rest g x hx⟩

/-- C3 amended witness: on the two-device scenario list, the selected
primary is the 8 GB device and its memory dominates the 2 GB device. -/
theorem C3_memory_outranks_witness :
    update_gpu_metrics noGpuDefaults 0 .absent (.ok [intelGpu, rtxGpu]) .absent
        = gputilApply (maxByMem intelGpu [rtxGpu]) ∧
      rtxGpu.memoryTotal ≤ (maxByMem intelGpu [rtxGpu]).memoryTotal :=
  ⟨(C3_memory_outranks_keywords noGpuDefaults 0 .absent intelGpu [rtxGpu]).1,
    (C3_memory_outranks_keywords noGpuDefaults 0 .absent intelGpu [rtxGpu]).2 rtxGpu
      (List.mem_cons_of_mem _ (List.mem_cons_self _ _))⟩

/-- C6 counterexample: with every backend absent and CPU load 50%, the
dashboard's no-GPU fallback reports utilization 0 and the name
"No GPU detected" — not the claimed `0.4 * 50 = 20` — and no
`estimated` flag exists on the GPU state at all. -/
theorem C6_counterexample :
    (update_gpu_metrics noGpuDefaults 50 .absent .absent .absent).gpu_usage = 0 ∧
      (update_gpu_metrics noGpuDefaults 50 .absent .absent .absent).gpu_usage
        ≠ min (50 * (2 / 5)) 100 ∧
      (update_gpu_metrics noGpuDefaults 50 .absent .absent .absent).gpu_name
        = "No GPU detected" := by
  refine ⟨rfl, ?_, rfl⟩
  show (noGpuDefaults).gpu_usage ≠ min (50 * (2 / 5)) 100
  rw [noGpuDefaults]
  norm_num

/-- C6 amended: only the client's final fallback derives utilization from
CPU load with the 0.4 coefficient — `min(cpu * 0.4, 100)`, e.g. 20 at
load 50 — with a fixed 15% memory estimate and the name
"Integrated Graphics"; the dashboard's fallback instead zeroes every GPU
field with the name "No GPU detected".  Neither result carries an
estimated flag. -/
theorem C6_fallback_values (cpu : ℚ) (h0 : 0 ≤ cpu) (h250 : cpu ≤ 250) :
    (clientNoGpuFallback cpu).usage = cpu * (2 / 5) ∧
      (clientNoGpuFallback cpu).memory_percent = 15 ∧
      (clientNoGpuFallback cpu).name = "Integrated Graphics" ∧
      (∀ (s : GpuState) (c : ℚ),
        update_gpu_metrics s c .absent .absent .absent = noGpuDefaults) := by
  have hmin : min (cpu * (2 / 5)) 100 = cpu * (2 / 5) := by
    rw [min_eq_left]
    nlinarith
  exact ⟨by rw [clientNoGpuFallback]; exact hmin, rfl, rfl, fun s c => rfl⟩

/-- C6 amended witness: at CPU load 50 the client fallback reports 20%
utilization. -/
theorem C6_fallback_witness :
    (clientNoGpuFallback 50).usage = 50 * (2 / 5) ∧
      (clientNoGpuFallback 50).memory_percent = 15 ∧
      (clientNoGpuFallback 50).name = "Integrated Graphics" ∧
      (∀ (s : GpuState) (c : ℚ),
        update_gpu_metrics s c .absent .absent .absent = noGpuDefaults) :=
  C6_fallback_values 50 (by norm_num) (by norm_num)

/-- C7: one sampling pass contains every backend failure locally.  A
backend that raises is indistinguishable from one that is absent or
reports no devices, GPU discovery always terminates in the defined
defaults when nothing answers, and missing disk/network telemetry leaves
the rate state defined (only the stored timestamp advances).  The
embedding of `update_metrics` is a total function, so no combination of
backend outcomes escapes as a fatal error. -/
theorem C7_error_containment :
    (∀ (s : GpuState) (cpu : ℚ) (gp : Probe (List GpuDevice)) (wm : Probe (List WmiGpu)),
        update_gpu_metrics s cpu .failed gp wm = update_gpu_metrics s cpu .absent gp wm) ∧
      (∀ (s : GpuState) (cpu : ℚ) (nv : Probe NvmlData) (wm : Probe (List WmiGpu)),
        update_gpu_metrics s cpu nv .failed wm = update_gpu_metrics s cpu nv (.ok []) wm) ∧
      (∀ (s : GpuState) (cpu : ℚ) (nv : Probe NvmlData) (gp : Probe (List GpuDevice)),
        update_gpu_metrics s cpu nv gp .failed = update_gpu_metrics s cpu nv gp (.ok [])) ∧
      (∀ (s : GpuState) (cpu : ℚ),
        update_gpu_metrics s cpu .absent .absent .absent = noGpuDefaults) ∧
      (∀ (s : CounterState) (t : ℚ),
        updateCounters s none none t = { s with prev_time := t }) := by
  refine ⟨fun s cpu gp wm => rfl, ?_, ?_, fun s cpu => rfl, fun s t => rfl⟩
  · intro s cpu nv wm
    cases nv with
    | absent => rfl
    | failed => rfl
    | ok d =>
      by_cases h : d.mem_total = 0
      · rw [update_gpu_metrics, update_gpu_metrics, if_pos h, if_pos h]
        rfl
      · rw [update_gpu_metrics, update_gpu_metrics, if_neg h, if_neg h]
  · intro s cpu nv gp
    cases nv with
    | absent =>
      cases gp with
      | absent => rfl
      | failed => rfl
      | ok l => cases l with
        | nil => rfl
        | cons g rest => rfl
    | failed =>
      cases gp with
      | absent => rfl
      | failed => rfl
      | ok l => cases l with
        | nil => rfl
        | cons g rest => rfl
    | ok d =>
      by_cases h : d.mem_total = 0
      · rw [update_gpu_metrics, update_gpu_metrics, if_pos h, if_pos h]
        cases gp with
        | absent => rfl
        | failed => rfl
        | ok l => cases l with
          | nil => rfl
          | cons g rest => rfl
      · rw [update_gpu_metrics, update_gpu_metrics, if_neg h, if_neg h]

/-! ## Percentage-range claims -/

/-- The WMI estimate path always produces a usage within `[0, 100]` (the
only clamped estimate in the code) and a fixed memory percentage of 25,
20 or 15. -/
theorem wmiApply_bounds (cpu : ℚ) (g : WmiGpu) (hcpu : 0 ≤ cpu) :
    0 ≤ (wmiApply cpu g).gpu_usage ∧ (wmiApply cpu g).gpu_usage ≤ 100 ∧
      0 ≤ (wmiApply cpu g).gpu_memory_percent ∧ (wmiApply cpu g).gpu_memory_percent ≤ 100 := by
  have husage0 : 0 ≤ min (cpu * (7 / 10)) 100 :=
    le_min (mul_nonneg hcpu (by norm_num)) (by norm_num)
  have husage100 : min (cpu * (7 / 10)) 100 ≤ 100 := min_le_right _ _
  have hnoram : ∀ u : ℚ, 0 ≤ u → u ≤ 100 →
      0 ≤ (wmiNoRamApply u g).gpu_usage ∧ (wmiNoRamApply u g).gpu_usage ≤ 100 ∧
        0 ≤ (wmiNoRamApply u g).gpu_memory_percent ∧
          (wmiNoRamApply u g).gpu_memory_percent ≤ 100 := by
    intro u hu0 hu100
    rw [wmiNoRamApply]
    split
    · exact ⟨hu0, hu100, by norm_num, by norm_num⟩
    · exact ⟨hu0, hu100, by norm_num, by norm_num⟩
  rw [wmiApply]
  split
  · split
    · exact ⟨husage0, husage100, by norm_num, by norm_num⟩
    · exact hnoram _ husage0 husage100
  · exact hnoram _ husage0 husage100

/-- The WMI stage keeps both percentages within `[0, 100]` for any
backend outcome. -/
theorem wmiStage_bounds (cpu : ℚ) (wm : Probe (List WmiGpu)) (hcpu : 0 ≤ cpu) :
    0 ≤ (wmiStage cpu wm).gpu_usage ∧ (wmiStage cpu wm).gpu_usage ≤ 100 ∧
      0 ≤ (wmiStage cpu wm).gpu_memory_percent ∧
        (wmiStage cpu wm).gpu_memory_percent ≤ 100 := by
  cases wm with
  | absent => norm_num [wmiStage, noGpuDefaults]
  | failed => norm_num [wmiStage, noGpuDefaults]
  | ok devs =>
    rw [wmiStage]
    split
    · norm_num [noGpuDefaults]
    · exact wmiApply_bounds cpu _ hcpu

/-- The GPUtil field-completion keeps both percentages within `[0, 100]`
provided the selected device's own readings are in range. -/
theorem gputilApply_bounds (p : GpuDevice)
    (h : 0 ≤ p.load ∧ p.load ≤ 1 ∧ 0 ≤ p.memoryUsed ∧ p.memoryUsed ≤ p.memoryTotal) :
    0 ≤ (gputilApply p).gpu_usage ∧ (gputilApply p).gpu_usage ≤ 100 ∧
      0 ≤ (gputilApply p).gpu_memory_percent ∧
        (gputilApply p).gpu_memory_percent ≤ 100 := by
  obtain ⟨h0, h1, hu0, hut⟩ := h
  refine ⟨mul_nonneg h0 (by norm_num), ?_, ?_, ?_⟩
  · show p.load * 100 ≤ 100
    nlinarith
  · show 0 ≤ (if 0 < p.memoryTotal then p.memoryUsed / p.memoryTotal * 100 else 0)
    by_cases hp : 0 < p.memoryTotal
    · rw [if_pos hp]
      positivity
    · rw [if_neg hp]
  · show (if 0 < p.memoryTotal then p.memoryUsed / p.memoryTotal * 100 else 0) ≤ 100
    by_cases hp : 0 < p.memoryTotal
    · rw [if_pos hp]
      have hle : p.memoryUsed / p.memoryTotal ≤ 1 := by
        rw [div_le_one hp]
        exact hut
      nlinarith [div_nonneg hu0 hp.le]
    · rw [if_neg hp]
      norm_num

/-- The GPUtil stage keeps both percentages within `[0, 100]` for any
backend outcome whose reported devices are themselves in range. -/
theorem gputilStage_bounds (cpu : ℚ) (gp : Probe (List GpuDevice))
    (wm : Probe (List WmiGpu)) (hcpu : 0 ≤ cpu)
    (hgp : ∀ l, gp = .ok l → ∀ g ∈ l,
      0 ≤ g.load ∧ g.load ≤ 1 ∧ 0 ≤ g.memoryUsed ∧ g.memoryUsed ≤ g.memoryTotal) :
    0 ≤ (gputilStage cpu gp wm).gpu_usage ∧ (gputilStage cpu gp wm).gpu_usage ≤ 100 ∧
      0 ≤ (gputilStage cpu gp wm).gpu_memory_percent ∧
        (gputilStage cpu gp wm).gpu_memory_percent ≤ 100 := by
  cases gp with
  | absent => exact wmiStage_bounds cpu wm hcpu
  | failed => exact wmiStage_bounds cpu wm hcpu
  | ok l =>
    cases l with
    | nil => exact wmiStage_bounds cpu wm hcpu
    | cons g rest =>
      exact gputilApply_bounds (maxByMem g rest)
        (hgp (g :: rest) rfl (maxByMem g rest) (maxByMem_mem rest g))

/-- C8 counterexample: a GPUtil backend reporting `load = 2` (200%)
propagates unclamped into the snapshot: the stored GPU utilization is
200, outside `[0, 100]`. -/
theorem C8_counterexample :
    (update_gpu_metrics noGpuDefaults 0 .absent
        (.ok [⟨"X", 2, 0, 1000, none⟩]) .absent).gpu_usage = 200 := by
  show (gputilApply (maxByMem ⟨"X", 2, 0, 1000, none⟩ [])).gpu_usage = 200
  rw [maxByMem]
  norm_num [gputilApply]

/-- C8 amended: the code never clamps the GPU percentages, so they lie in
`[0, 100]` only under the assumption that the backend readings are
themselves in range: CPU load non-negative, NVML utilization in
`[0, 100]` with `used ≤ total`, and every GPUtil device with
`load ∈ [0, 1]` and `0 ≤ memoryUsed ≤ memoryTotal`.  Out-of-range
backend values (e.g. `load = 2`) propagate unchanged. -/
theorem C8_percent_bounds (s : GpuState) (cpu : ℚ) (nv : Probe NvmlData)
    (gp : Probe (List GpuDevice)) (wm : Probe (List WmiGpu)) (hcpu : 0 ≤ cpu)
    (hnv : ∀ d, nv = .ok d → 0 ≤ d.util_gpu ∧ d.util_gpu ≤ 100 ∧ d.mem_used ≤ d.mem_total)
    (hgp : ∀ l, gp = .ok l → ∀ g ∈ l,
      0 ≤ g.load ∧ g.load ≤ 1 ∧ 0 ≤ g.memoryUsed ∧ g.memoryUsed ≤ g.memoryTotal) :
    0 ≤ (update_gpu_metrics s cpu nv gp wm).gpu_usage ∧
      (update_gpu_metrics s cpu nv gp wm).gpu_usage ≤ 100 ∧
      0 ≤ (update_gpu_metrics s cpu nv gp wm).gpu_memory_percent ∧
      (update_gpu_metrics s cpu nv gp wm).gpu_memory_percent ≤ 100 := by
  cases nv with
  | absent => exact gputilStage_bounds cpu gp wm hcpu hgp
  | failed => exact gputilStage_bounds cpu gp wm hcpu hgp
  | ok d =>
    by_cases hz : d.mem_total = 0
    · rw [update_gpu_metrics, if_pos hz]
      exact gputilStage_bounds cpu gp wm hcpu hgp
    · rw [update_gpu_metrics, if_neg hz]
      obtain ⟨hu0, hu100, hmem⟩ := hnv d rfl
      have htpos : (0 : ℚ) < (d.mem_total : ℚ) := by
        exact_mod_cast Nat.pos_of_ne_zero hz
      have hcast : (d.mem_used : ℚ) ≤ (d.mem_total : ℚ) := by exact_mod_cast hmem
      refine ⟨hu0, hu100, ?_, ?_⟩
      · rw [nvmlApply]
        positivity
      · rw [nvmlApply]
        have hle : (d.mem_used : ℚ) / (d.mem_total : ℚ) ≤ 1 := by
          rw [div_le_one htpos]
          exact hcast
        have hnn : (0 : ℚ) ≤ (d.mem_used : ℚ) / (d.mem_total : ℚ) :=
          div_nonneg (by positivity) htpos.le
        nlinarith

/-- C8 amended witness: an in-range NVML reading (70% utilization,
1 GiB used of 2 GiB) yields in-range snapshot percentages. -/
theorem C8_percent_witness :
    0 ≤ (update_gpu_metrics noGpuDefaults 50 (.ok ⟨70, 1073741824, 2147483648, some 60⟩)
        .absent .absent).gpu_usage ∧
      (update_gpu_metrics noGpuDefaults 50 (.ok ⟨70, 1073741824, 2147483648, some 60⟩)
        .absent .absent).gpu_usage ≤ 100 ∧
      0 ≤ (update_gpu_metrics noGpuDefaults 50 (.ok ⟨70, 1073741824, 2147483648, some 60⟩)
        .absent .absent).gpu_memory_percent ∧
      (update_gpu_metrics noGpuDefaults 50 (.ok ⟨70, 1073741824, 2147483648, some 60⟩)
        .absent .absent).gpu_memory_percent ≤ 100 :=
  C8_percent_bounds noGpuDefaults 50 (.ok ⟨70, 1073741824, 2147483648, some 60⟩)
    .absent .absent (by norm_num)
    (fun d hd => by cases hd; exact ⟨by norm_num, by norm_num, by norm_num⟩)
    (fun l hl => by cases hl)

/-! ## History alignment claim -/

/-- Folding the thirteen-deque append decomposes into thirteen
independent single-deque folds, one per projected value stream. -/
theorem foldl_appendHistories (ts : List TickData) (h : Histories) :
    List.foldl appendHistories h ts =
      { timestamps := List.foldl (dequeAppend 60) h.timestamps (ts.map fun t => t.timestamp)
        cpu_history := List.foldl (dequeAppend 60) h.cpu_history (ts.map fun t => t.cpu_percent)
        memory_history :=
          List.foldl (dequeAppend 60) h.memory_history (ts.map fun t => t.memory_percent)
        disk_read_history := List.foldl (dequeAppend 60) h.disk_read_history
          (ts.map fun t => t.disk_read_speed / (1024 * 1024))
        disk_write_history := List.foldl (dequeAppend 60) h.disk_write_history
          (ts.map fun t => t.disk_write_speed / (1024 * 1024))
        network_sent_history := List.foldl (dequeAppend 60) h.network_sent_history
          (ts.map fun t => t.network_sent_speed / (1024 * 1024))
        network_recv_history := List.foldl (dequeAppend 60) h.network_recv_history
          (ts.map fun t => t.network_recv_speed / (1024 * 1024))
        temp_history := List.foldl (dequeAppend 60) h.temp_history (ts.map fun t => t.cpu_temp)
        gpu_usage_history :=
          List.foldl (dequeAppend 60) h.gpu_usage_history (ts.map fun t => t.gpu_usage)
        gpu_memory_history :=
          List.foldl (dequeAppend 60) h.gpu_memory_history (ts.map fun t => t.gpu_memory_percent)
        gpu_temp_history :=
          List.foldl (dequeAppend 60) h.gpu_temp_history (ts.map fun t => t.gpu_temp)
        audio_sample_rate_history := List.foldl (dequeAppend 60) h.audio_sample_rate_history
          (ts.map fun t => t.audio_sample_rate / 1000)
        audio_buffer_history :=
          List.foldl (dequeAppend 60) h.audio_buffer_history
            (ts.map fun t => t.audio_buffer_size) } := by
  induction ts generalizing h with
  | nil => rfl
  | cons t ts ih =>
    simp only [List.foldl_cons, List.map_cons, ih]
    rfl

/-- A single projected stream, fed from any start, keeps the last-60
suffix of the concatenation. -/
theorem historyFold_map_drop (f : TickData → ℚ) (ts : List TickData) :
    List.foldl (dequeAppend 60) [] (ts.map f) = (ts.drop (ts.length - 60)).map f := by
  have h := dequeAppend_foldl 60 (by norm_num) (ts.map f) ([] : List ℚ) (by simp)
  rw [h]
  simp only [List.nil_append, List.length_nil, Nat.zero_add, List.length_map]
  exact (List.map_drop f ts (ts.length - 60)).symm

/-- C10: every sampling pass appends exactly one element to each of the
thirteen history deques, so after any run each deque equals the last-60
suffix of its projected tick stream: all thirteen buffers always have
the same length `min N 60` and entries at equal indices come from the
same tick. -/
theorem C10_histories_aligned (ts : List TickData) :
    (historiesAfter ts).timestamps = (ts.drop (ts.length - 60)).map (fun t => t.timestamp) ∧
      (historiesAfter ts).cpu_history
        = (ts.drop (ts.length - 60)).map (fun t => t.cpu_percent) ∧
      (historiesAfter ts).memory_history
        = (ts.drop (ts.length - 60)).map (fun t => t.memory_percent) ∧
      (historiesAfter ts).disk_read_history
        = (ts.drop (ts.length - 60)).map (fun t => t.disk_read_speed / (1024 * 1024)) ∧
      (historiesAfter ts).disk_write_history
        = (ts.drop (ts.length - 60)).map (fun t => t.disk_write_speed / (1024 * 1024)) ∧
      (historiesAfter ts).network_sent_history
        = (ts.drop (ts.length - 60)).map (fun t => t.network_sent_speed / (1024 * 1024)) ∧
      (historiesAfter ts).network_recv_history
        = (ts.drop (ts.length - 60)).map (fun t => t.network_recv_speed / (1024 * 1024)) ∧
      (historiesAfter ts).temp_history
        = (ts.drop (ts.length - 60)).map (fun t => t.cpu_temp) ∧
      (historiesAfter ts).gpu_usage_history
        = (ts.drop (ts.length - 60)).map (fun t => t.gpu_usage) ∧
      (historiesAfter ts).gpu_memory_history
        = (ts.drop (ts.length - 60)).map (fun t => t.gpu_memory_percent) ∧
      (historiesAfter ts).gpu_temp_history
        = (ts.drop (ts.length - 60)).map (fun t => t.gpu_temp) ∧
      (historiesAfter ts).audio_sample_rate_history
        = (ts.drop (ts.length - 60)).map (fun t => t.audio_sample_rate / 1000) ∧
      (historiesAfter ts).audio_buffer_history
        = (ts.drop (ts.length - 60)).map (fun t => t.audio_buffer_size) ∧
      (historiesAfter ts).timestamps.length = min ts.length 60 ∧
      (∀ (s : MetricsState) (inp : SampleInputs),
        (update_metrics s inp).hist.timestamps
          = dequeAppend 60 s.hist.timestamps inp.current_time) ∧
      (∀ (s : MetricsState) (inp : SampleInputs),
        (update_metrics s inp).hist.cpu_history
          = dequeAppend 60 s.hist.cpu_history inp.cpu_percent) := by
  rw [historiesAfter, foldl_appendHistories]
  refine ⟨historyFold_map_drop _ ts, historyFold_map_drop _ ts, historyFold_map_drop _ ts,
    historyFold_map_drop _ ts, historyFold_map_drop _ ts, historyFold_map_drop _ ts,
    historyFold_map_drop _ ts, historyFold_map_drop _ ts, historyFold_map_drop _ ts,
    historyFold_map_drop _ ts, historyFold_map_drop _ ts, historyFold_map_drop _ ts,
    historyFold_map_drop _ ts, ?_, fun s inp => rfl, fun s inp => rfl⟩
  show (List.foldl (dequeAppend 60) [] (ts.map fun t => t.timestamp)).length = min ts.length 60
  rw [historyFold_map_drop _ ts]
  rw [List.length_map, List.length_drop]
  omega

end Telemetry
